import Mathlib

/-!
Shallow embedding of the command-relay protocol core of
`src/talk_to_figma_mcp/server.ts` (the Command Gateway and Connection
Supervisor): the pending-request map, the WebSocket event handlers installed
by `connectToFigma`, `joinChannel`, `sendCommandToFigma`, and the tool
handlers `set_fill_color`, `set_stroke_color` and `clone_node`.

Representation choices:
* JSON values sent over the wire are the inductive `JValue`; JS numbers are
  embedded as `Rat` (every concrete value appearing in the claims is exact
  in both binary floating point and in `Rat`).
* Correlation ids are `Nat` tokens standing for the UUID strings produced by
  `uuidv4()`; the generator is a counter (`nextId`), which models the
  freshness contract of UUID generation.  A UUID string on the wire is a
  nonempty string, hence truthy in JS whenever present, so truthiness of a
  response id is modelled as presence (`Option.isSome`).
* Timer handles from `setTimeout` are `Nat` tokens drawn from a second
  counter.
* The resolve/reject continuations stored in a pending record, and the
  side effects of the handlers, are modelled by an explicit list of
  `GatewayEvent`s emitted by each operation.
-/

/-- A JSON value as transmitted between Gateway, relay and executor. -/
inductive JValue where
  | null : JValue
  | num : Rat → JValue
  | str : String → JValue
  | obj : List (String × JValue) → JValue
deriving Repr

/-- Field lookup on a JSON object, `none` on any other value
(JS property access on the modelled shapes). -/
def jGet (v : JValue) (k : String) : Option JValue :=
  match v with
  | .obj fields => fields.lookup k
  | _ => none

/-- JS truthiness of an optional JSON value: `undefined`, `null`, `0` and
the empty string are falsy; objects are truthy. -/
def truthyOptVal : Option JValue → Bool
  | none => false
  | some .null => false
  | some (.num q) => q != 0
  | some (.str s) => s != ""
  | some (.obj _) => true

/-- JS truthiness of an optional string: `undefined` and `""` are falsy. -/
def truthyOptStr : Option String → Bool
  | none => false
  | some s => s != ""

/-- JS truthiness of an optional correlation id.  Ids on the wire are UUID
strings, which are nonempty, hence truthy exactly when present. -/
def truthyOptId : Option Nat → Bool := Option.isSome

/-- `interface FigmaResponse { id: string; result?: any; error?: string }`,
as extracted from `json.message` by the ws message handler. -/
structure FigmaResponse where
  id : Option Nat
  result : Option JValue
  error : Option String

/-- One entry of `pendingRequests`: the stored `setTimeout` handle.  The
`resolve`/`reject` continuations are modelled by `GatewayEvent`s. -/
structure PendingRequest where
  timeout : Nat
deriving Repr, DecidableEq

/-- The inner `message` object of a relay-bound request:
`{id, command, params}`. -/
structure InnerMessage where
  id : Nat
  command : String
  params : JValue
deriving Repr

/-- A relay-bound wire message:
`{id, type: "join"|"message", channel, message}`. -/
structure WireRequest where
  id : Nat
  type : String
  channel : Option JValue
  message : InnerMessage
deriving Repr

/-- Observable side effects of the Gateway operations: socket sends, timer
arming/clearing, settlement of a pending promise, and the connection
supervision actions (`connectToFigma()` from the not-connected branch, and
the delayed reconnect scheduled by the close handler). -/
inductive GatewayEvent where
  | setTimeoutEv (handle delayMs : Nat)
  | clearTimeoutEv (handle : Nat)
  | wsSend (req : WireRequest)
  | resolve (id : Nat) (result : JValue)
  | reject (id : Nat) (errMsg : String)
  | startConnect
  | scheduleReconnect (delayMs : Nat)
deriving Repr

/-- The Gateway-process state read and mutated by the embedded functions:
the socket (`ws !== null && ws.readyState === OPEN`), `currentChannel`,
`pendingRequests`, and the two freshness counters. -/
structure GatewayState where
  wsOpen : Bool
  currentChannel : Option String
  pendingRequests : List (Nat × PendingRequest)
  nextId : Nat
  nextTimer : Nat
deriving Repr

/-- `pendingRequests.has(id)`. -/
def mapHas (m : List (Nat × PendingRequest)) (id : Nat) : Bool :=
  (m.lookup id).isSome

/-- `pendingRequests.delete(id)` (a JS `Map` holds at most one entry per
key; deletion removes it and preserves insertion order of the rest). -/
def mapDelete (m : List (Nat × PendingRequest)) (id : Nat) :
    List (Nat × PendingRequest) :=
  m.filter (fun p => p.1 != id)

/-- `pendingRequests.set(id, v)`: overwrite in place if the key exists,
otherwise append in insertion order. -/
def mapSet (m : List (Nat × PendingRequest)) (id : Nat) (v : PendingRequest) :
    List (Nat × PendingRequest) :=
  if (m.lookup id).isSome then
    m.map (fun p => if p.1 == id then (id, v) else p)
  else
    m ++ [(id, v)]

/-- The `ws.on("open", ...)` handler installed by `connectToFigma`: the
transport is now open and `currentChannel` is reset to `null`. -/
def wsOnOpen (st : GatewayState) : GatewayState :=
  { st with wsOpen := true, currentChannel := none }

/-- The `ws.on("message", ...)` handler installed by `connectToFigma`.  The
settlement branch is guarded by
`myResponse.id && pendingRequests.has(myResponse.id) && myResponse.result`;
inside it the stored timeout is cleared, then
`if (myResponse.error) reject(new Error(myResponse.error)) else if
(myResponse.result) resolve(myResponse.result)`, and the entry is deleted.
Any message failing the guard falls to the broadcast-logging branch and
changes nothing. -/
def wsOnMessage (st : GatewayState) (resp : FigmaResponse) :
    GatewayState × List GatewayEvent :=
  match resp.id with
  | none => (st, [])
  | some rid =>
    match st.pendingRequests.lookup rid with
    | none => (st, [])
    | some entry =>
      if truthyOptVal resp.result then
        ({ st with pendingRequests := mapDelete st.pendingRequests rid },
         [GatewayEvent.clearTimeoutEv entry.timeout] ++
           (if truthyOptStr resp.error then
              [GatewayEvent.reject rid (resp.error.getD "")]
            else
              [GatewayEvent.resolve rid (resp.result.getD JValue.null)]))
      else (st, [])

/-- The `ws.on("close", ...)` handler installed by `connectToFigma`:
`ws = null`, then every pending request has its timeout cleared and is
rejected with `"Connection closed"` and deleted, then a reconnect is
scheduled after 2000 ms. -/
def wsOnClose (st : GatewayState) : GatewayState × List GatewayEvent :=
  ({ st with wsOpen := false, pendingRequests := [] },
   (st.pendingRequests.flatMap fun p =>
      [GatewayEvent.clearTimeoutEv p.2.timeout,
       GatewayEvent.reject p.1 "Connection closed"])
     ++ [GatewayEvent.scheduleReconnect 2000])

/-- The timeout callback armed by `sendCommandToFigma` for request `id`:
if the id is still pending, delete it and reject with
`"Request to Figma timed out"`; otherwise do nothing. -/
def requestTimeoutFires (st : GatewayState) (id : Nat) :
    GatewayState × List GatewayEvent :=
  if mapHas st.pendingRequests id then
    ({ st with pendingRequests := mapDelete st.pendingRequests id },
     [GatewayEvent.reject id "Request to Figma timed out"])
  else (st, [])

/-- JS truthiness of `currentChannel` (a `string | null`). -/
def truthyChannel : Option String → Bool
  | none => false
  | some s => s != ""

/-- The synchronous outcome of a `sendCommandToFigma` call: either the
returned promise was rejected immediately, or a pending record with the
given fresh id was registered and the envelope transmitted. -/
inductive SendOutcome where
  | rejectedNow (errMsg : String)
  | pendingSent (id : Nat)
deriving Repr, DecidableEq

/-- `sendCommandToFigma(command, params)`: reject immediately (after
kicking off `connectToFigma()`) when the socket is not open; reject
immediately when a channel is required (`command !== "join"`) but not
joined; otherwise draw a fresh id, build the wire request
`{id, type, channel, message: {id, command, params}}`, arm a 30000 ms
timeout, register the pending record, and send. -/
def sendCommandToFigma (st : GatewayState) (command : String) (params : JValue) :
    GatewayState × List GatewayEvent × SendOutcome :=
  if !st.wsOpen then
    (st, [GatewayEvent.startConnect],
     SendOutcome.rejectedNow "Not connected to Figma. Attempting to connect...")
  else
    let requiresChannel := command != "join"
    if requiresChannel && !truthyChannel st.currentChannel then
      (st, [], SendOutcome.rejectedNow "Must join a channel before sending commands")
    else
      let id := st.nextId
      let request : WireRequest :=
        { id := id
          type := if command == "join" then "join" else "message"
          channel :=
            if command == "join" then jGet params "channel"
            else st.currentChannel.map JValue.str
          message := { id := id, command := command, params := params } }
      let timer := st.nextTimer
      ({ st with
          pendingRequests := mapSet st.pendingRequests id ⟨timer⟩
          nextId := st.nextId + 1
          nextTimer := st.nextTimer + 1 },
       [GatewayEvent.setTimeoutEv timer 30000, GatewayEvent.wsSend request],
       SendOutcome.pendingSent id)

/-- The continuation of `joinChannel(channelName)` run after
`sendCommandToFigma("join", {channel})` resolved: `currentChannel` is set
to the joined channel.  This assignment and the reset in `wsOnOpen` are the
only writes to `currentChannel` in the source. -/
def joinChannelSucceeded (st : GatewayState) (channelName : String) :
    GatewayState :=
  { st with currentChannel := some channelName }

/-- One event-loop step of the Gateway process: any of the embedded
operations fires. -/
inductive GatewayStep : GatewayState → GatewayState → Prop where
  | opened (st : GatewayState) : GatewayStep st (wsOnOpen st)
  | message (st : GatewayState) (resp : FigmaResponse) :
      GatewayStep st (wsOnMessage st resp).1
  | closed (st : GatewayState) : GatewayStep st (wsOnClose st).1
  | timedOut (st : GatewayState) (id : Nat) :
      GatewayStep st (requestTimeoutFires st id).1
  | sent (st : GatewayState) (command : String) (params : JValue) :
      GatewayStep st (sendCommandToFigma st command params).1
  | joined (st : GatewayState) (name : String) :
      GatewayStep st (joinChannelSucceeded st name)

/-- Every id in the pending map was drawn from the id counter. -/
def idsFresh (st : GatewayState) : Prop :=
  ∀ p ∈ st.pendingRequests, p.1 < st.nextId

/-- `z.number().min(0).max(1)` — the zod bound on each color channel in the
`set_fill_color` / `set_stroke_color` registration schemas. -/
def zNum01 (q : Rat) : Bool :=
  decide (0 ≤ q) && decide (q ≤ 1)

/-- The declared `set_fill_color` argument schema: `r`, `g`, `b` required in
[0,1]; `a` optional in [0,1] (`nodeId` is any string). -/
def setFillColorArgsValid (r g b : Rat) (a : Option Rat) : Bool :=
  zNum01 r && zNum01 g && zNum01 b &&
    (match a with | none => true | some v => zNum01 v)

/-- The declared `set_stroke_color` argument schema: the color channels as
in `set_fill_color`, plus an optional positive `weight`. -/
def setStrokeColorArgsValid (r g b : Rat) (a : Option Rat)
    (weight : Option Rat) : Bool :=
  setFillColorArgsValid r g b a &&
    (match weight with | none => true | some w => decide (0 < w))

/-- JS `a || 1` on an optional number: `undefined` and `0` are falsy and
yield the default `1`; any other number is returned unchanged. -/
def jsOrOne (a : Option Rat) : Rat :=
  match a with
  | none => 1
  | some v => if v = 0 then 1 else v

/-- The `params` object the `set_fill_color` handler passes to
`sendCommandToFigma`: `{nodeId, color: {r, g, b, a: a || 1}}`. -/
def setFillColorSendParams (nodeId : String) (r g b : Rat) (a : Option Rat) :
    JValue :=
  .obj [("nodeId", .str nodeId),
        ("color", .obj [("r", .num r), ("g", .num g), ("b", .num b),
                        ("a", .num (jsOrOne a))])]

/-- The `params` object the `set_stroke_color` handler passes to
`sendCommandToFigma`:
`{nodeId, color: {r, g, b, a: a || 1}, weight: weight || 1}`. -/
def setStrokeColorSendParams (nodeId : String) (r g b : Rat) (a : Option Rat)
    (weight : Option Rat) : JValue :=
  .obj [("nodeId", .str nodeId),
        ("color", .obj [("r", .num r), ("g", .num g), ("b", .num b),
                        ("a", .num (jsOrOne a))]),
        ("weight", .num (jsOrOne weight))]

/-- Outcome of one tool invocation as seen by the MCP caller. -/
inductive ToolOutcome where
  | validationError
  | handlerRan (outcome : SendOutcome)
deriving Repr, DecidableEq

/-- Modelled from the spec: the tool registration layer (the `server.tool`
wrapper provided by the MCP SDK, whose source is not part of this
repository) checks the arguments of a call against the zod schema declared
at registration before running the handler body; arguments violating the
schema produce a synchronous validation error and the handler body never
runs.  The schema itself (`setFillColorArgsValid`) and the handler body are
taken from the `set_fill_color` registration in the source. -/
def setFillColorTool (st : GatewayState) (nodeId : String) (r g b : Rat)
    (a : Option Rat) : GatewayState × List GatewayEvent × ToolOutcome :=
  if setFillColorArgsValid r g b a then
    let r2 := sendCommandToFigma st "set_fill_color"
      (setFillColorSendParams nodeId r g b a)
    (r2.1, r2.2.1, ToolOutcome.handlerRan r2.2.2)
  else
    (st, [], ToolOutcome.validationError)

/-- Modelled from the spec, like `setFillColorTool`: the `set_stroke_color`
registration with its schema and handler body from the source. -/
def setStrokeColorTool (st : GatewayState) (nodeId : String) (r g b : Rat)
    (a : Option Rat) (weight : Option Rat) :
    GatewayState × List GatewayEvent × ToolOutcome :=
  if setStrokeColorArgsValid r g b a weight then
    let r2 := sendCommandToFigma st "set_stroke_color"
      (setStrokeColorSendParams nodeId r g b a weight)
    (r2.1, r2.2.1, ToolOutcome.handlerRan r2.2.2)
  else
    (st, [], ToolOutcome.validationError)

/-- The alpha channel of the `color` object inside a command `params`
payload, as the executor would read it. -/
def sentAlpha (params : JValue) : Option JValue :=
  (jGet params "color").bind fun c => jGet c "a"

/-- The `clone_node` tool handler body, as the ordered list of
`(command, params)` pairs it passes to `sendCommandToFigma`, given the
value the `get_node_info` round trip resolved with.  The handler first
awaits `get_node_info {nodeId}`; it then throws (sending nothing further)
unless the result is an object carrying `x` and `y` fields; otherwise it
resolves the optional offsets against the defaults (200 for `x`, 0 for
`y`) and sends `clone_node {nodeId, x: original.x + offsetX, y:
original.y + offsetY}`.  Node positions reported by `get_node_info` are
numbers, embedded as `Rat`; the additions at the inputs considered here
are exact in floating point. -/
def cloneNodeCommands (nodeId : String) (x y : Option Rat)
    (originalNode : JValue) : List (String × JValue) :=
  ("get_node_info", JValue.obj [("nodeId", .str nodeId)]) ::
    (match originalNode with
     | .obj _ =>
       match jGet originalNode "x", jGet originalNode "y" with
       | some (.num ox), some (.num oy) =>
         let offsetX := x.getD 200
         let offsetY := y.getD 0
         [("clone_node",
           JValue.obj [("nodeId", .str nodeId),
                       ("x", .num (ox + offsetX)),
                       ("y", .num (oy + offsetY))])]
       | _, _ => []
     | _ => [])

/-- Does an event reject some pending request? -/
def isRejectEvent : GatewayEvent → Bool
  | GatewayEvent.reject _ _ => true
  | _ => false

/-- A sample Gateway state used to instantiate the theorems below: open
socket, channel "design-1" joined, one in-flight request with id 5 whose
timer handle is 3. -/
def sampleState : GatewayState :=
  { wsOpen := true, currentChannel := some "design-1",
    pendingRequests := [(5, ⟨3⟩)], nextId := 6, nextTimer := 4 }

theorem lookup_mapDelete_self (m : List (Nat × PendingRequest)) (id : Nat) :
    (mapDelete m id).lookup id = none := by
  induction m with
  | nil => rfl
  | cons p t ih =>
    obtain ⟨k, v⟩ := p
    by_cases h : k = id
    · simpa [mapDelete, h] using ih
    · have hb : (id == k) = false := beq_eq_false_iff_ne.mpr (Ne.symm h)
      simpa [mapDelete, List.lookup, h, hb] using ih

theorem mapHas_mapDelete_self (m : List (Nat × PendingRequest)) (id : Nat) :
    mapHas (mapDelete m id) id = false := by
  simp [mapHas, lookup_mapDelete_self]

theorem mapSet_of_not_mem (m : List (Nat × PendingRequest)) (id : Nat)
    (v : PendingRequest) (h : m.lookup id = none) :
    mapSet m id v = m ++ [(id, v)] := by
  simp [mapSet, h]

theorem wsOnMessage_of_not_pending (st : GatewayState) (resp : FigmaResponse)
    (rid : Nat) (hid : resp.id = some rid)
    (h : st.pendingRequests.lookup rid = none) :
    wsOnMessage st resp = (st, []) := by
  simp [wsOnMessage, hid, h]

/-- C1: the claim says that a response envelope whose `error` field is set
and whose id matches a pending record makes the Gateway reject that record
with the executor error message instead of waiting for the 30-second
timeout.  The embedded handler shows the opposite at a concrete failing
input: a response `{id: 5, error: "boom"}` with no `result` field, while
id 5 is pending, fails the settlement guard (which requires a truthy
`result`), so the handler leaves the state unchanged — the record stays
pending, no rejection is emitted, and the executor message "boom" is never
surfaced; the caller is left to the timeout. -/
theorem wsOnMessage_drops_error_only_response :
    wsOnMessage sampleState
      { id := some 5, result := none, error := some "boom" } =
      (sampleState, []) ∧
    mapHas (wsOnMessage sampleState
      { id := some 5, result := none, error := some "boom" }).1.pendingRequests
      5 = true := ⟨rfl, rfl⟩

/-- C2: a pending request whose 30-second timer fires with no response is
removed from the pending map and rejected exactly once with the fixed
timeout message, which differs from the transport-error messages; a
response for that id arriving after the timeout is a no-op, and so is the
timer firing again. -/
theorem requestTimeout_rejects_once_late_response_noop
    (st : GatewayState) (id : Nat)
    (h : mapHas st.pendingRequests id = true) :
    requestTimeoutFires st id =
      ({ st with pendingRequests := mapDelete st.pendingRequests id },
       [GatewayEvent.reject id "Request to Figma timed out"]) ∧
    mapHas (requestTimeoutFires st id).1.pendingRequests id = false ∧
    ("Request to Figma timed out" ≠ "Connection closed" ∧
     "Request to Figma timed out" ≠
       "Not connected to Figma. Attempting to connect...") ∧
    (∀ resp : FigmaResponse, resp.id = some id →
        wsOnMessage (requestTimeoutFires st id).1 resp =
          ((requestTimeoutFires st id).1, [])) ∧
    requestTimeoutFires (requestTimeoutFires st id).1 id =
      ((requestTimeoutFires st id).1, []) := by
  have hfire : requestTimeoutFires st id =
      ({ st with pendingRequests := mapDelete st.pendingRequests id },
       [GatewayEvent.reject id "Request to Figma timed out"]) := by
    simp [requestTimeoutFires, h]
  refine ⟨hfire, ?_, ⟨by decide, by decide⟩, ?_, ?_⟩
  · rw [hfire]
    exact mapHas_mapDelete_self st.pendingRequests id
  · intro resp hid
    exact wsOnMessage_of_not_pending _ resp id hid
      (by rw [hfire]; exact lookup_mapDelete_self st.pendingRequests id)
  · rw [hfire]
    simp [requestTimeoutFires, mapHas_mapDelete_self]

/-- C2 witness: the theorem instantiated at `sampleState` and its in-flight
request id 5. -/
theorem requestTimeout_rejects_once_witness :
    mapHas sampleState.pendingRequests 5 = true ∧
    requestTimeoutFires sampleState 5 =
      ({ sampleState with pendingRequests := mapDelete sampleState.pendingRequests 5 },
       [GatewayEvent.reject 5 "Request to Figma timed out"]) :=
  ⟨rfl, (requestTimeout_rejects_once_late_response_noop sampleState 5 rfl).1⟩

theorem countP_closeEvents (l : List (Nat × PendingRequest)) :
    ((l.flatMap fun p =>
        [GatewayEvent.clearTimeoutEv p.2.timeout,
         GatewayEvent.reject p.1 "Connection closed"]).countP isRejectEvent)
      = l.length := by
  induction l with
  | nil => rfl
  | cons p t ih =>
    simp [List.countP_cons, isRejectEvent, ih, Nat.add_comm]

/-- C3: when the transport closes with N in-flight requests, every pending
record has its timer cleared and is rejected with the connection-closed
error, the number of rejections emitted equals N (none is skipped, none is
rejected twice), the pending map is left empty, the socket is marked gone,
and a reconnect is scheduled after the fixed 2000 ms delay. -/
theorem wsOnClose_rejects_all_pending (st : GatewayState) :
    (wsOnClose st).1.pendingRequests = [] ∧
    (wsOnClose st).1.wsOpen = false ∧
    (∀ p ∈ st.pendingRequests,
        GatewayEvent.reject p.1 "Connection closed" ∈ (wsOnClose st).2 ∧
        GatewayEvent.clearTimeoutEv p.2.timeout ∈ (wsOnClose st).2) ∧
    ((wsOnClose st).2.countP isRejectEvent) = st.pendingRequests.length ∧
    GatewayEvent.scheduleReconnect 2000 ∈ (wsOnClose st).2 := by
  refine ⟨rfl, rfl, ?_, ?_, ?_⟩
  · intro p hp
    constructor
    · simp only [wsOnClose, List.mem_append, List.mem_flatMap]
      exact Or.inl ⟨p, hp, by simp⟩
    · simp only [wsOnClose, List.mem_append, List.mem_flatMap]
      exact Or.inl ⟨p, hp, by simp⟩
  · simp only [wsOnClose, List.countP_append]
    rw [countP_closeEvents]
    simp [isRejectEvent]
  · simp [wsOnClose]

/-- C3 witness: the theorem instantiated at `sampleState`, whose single
pending record (id 5, timer 3) is rejected and cleared. -/
theorem wsOnClose_rejects_all_pending_witness :
    (wsOnClose sampleState).1.pendingRequests = [] ∧
    GatewayEvent.reject 5 "Connection closed" ∈ (wsOnClose sampleState).2 ∧
    GatewayEvent.clearTimeoutEv 3 ∈ (wsOnClose sampleState).2 ∧
    GatewayEvent.scheduleReconnect 2000 ∈ (wsOnClose sampleState).2 := by
  obtain ⟨h1, -, h3, -, h5⟩ := wsOnClose_rejects_all_pending sampleState
  have hm : ((5 : Nat), (⟨3⟩ : PendingRequest)) ∈ sampleState.pendingRequests := by
    simp [sampleState]
  exact ⟨h1, (h3 _ hm).1, (h3 _ hm).2, h5⟩

theorem wsOnMessage_state_shape (st : GatewayState) (resp : FigmaResponse) :
    ∃ m, (wsOnMessage st resp).1 = { st with pendingRequests := m } := by
  rcases hid : resp.id with _ | rid
  · exact ⟨st.pendingRequests, by simp [wsOnMessage, hid]⟩
  · rcases hl : st.pendingRequests.lookup rid with _ | entry
    · exact ⟨st.pendingRequests, by simp [wsOnMessage, hid, hl]⟩
    · by_cases ht : truthyOptVal resp.result = true
      · exact ⟨mapDelete st.pendingRequests rid,
          by simp [wsOnMessage, hid, hl, ht]⟩
      · exact ⟨st.pendingRequests, by simp [wsOnMessage, hid, hl, ht]⟩

theorem requestTimeoutFires_state_shape (st : GatewayState) (id : Nat) :
    ∃ m, (requestTimeoutFires st id).1 = { st with pendingRequests := m } := by
  by_cases h : mapHas st.pendingRequests id = true
  · exact ⟨mapDelete st.pendingRequests id, by simp [requestTimeoutFires, h]⟩
  · exact ⟨st.pendingRequests, by simp [requestTimeoutFires, h]⟩

theorem send_state_shape (st : GatewayState) (command : String) (params : JValue) :
    (sendCommandToFigma st command params).1 = st ∨
    (sendCommandToFigma st command params).1 =
      { st with
          pendingRequests := mapSet st.pendingRequests st.nextId ⟨st.nextTimer⟩,
          nextId := st.nextId + 1, nextTimer := st.nextTimer + 1 } := by
  by_cases h1 : st.wsOpen = true
  · by_cases h2 : ((command != "join") && !truthyChannel st.currentChannel) = true
    · left; simp [sendCommandToFigma, h1, h2]
    · right; simp [sendCommandToFigma, h1, h2]
  · left; simp [sendCommandToFigma, h1]

theorem send_pendingSent_id (st : GatewayState) (command : String)
    (params : JValue) (id2 : Nat)
    (h : (sendCommandToFigma st command params).2.2 = SendOutcome.pendingSent id2) :
    id2 = st.nextId := by
  by_cases h1 : st.wsOpen = true
  · by_cases h2 : ((command != "join") && !truthyChannel st.currentChannel) = true
    · simp [sendCommandToFigma, h1, h2] at h
    · simp [sendCommandToFigma, h1, h2] at h
      exact h.symm
  · simp [sendCommandToFigma, h1] at h

/-- C4: with a live connection but no channel joined, any command other
than `join` is rejected synchronously with the precondition error, with no
state change (no pending record) and no emitted event (nothing goes over
the wire); a `join` call from the same state goes through: it is assigned
the fresh id, registered, and its envelope is transmitted. -/
theorem send_requires_channel (st : GatewayState) (command : String)
    (params pjoin : JValue)
    (hopen : st.wsOpen = true) (hch : st.currentChannel = none)
    (hcmd : command ≠ "join") :
    sendCommandToFigma st command params =
      (st, [],
       SendOutcome.rejectedNow "Must join a channel before sending commands") ∧
    (sendCommandToFigma st "join" pjoin).2.2 =
      SendOutcome.pendingSent st.nextId ∧
    GatewayEvent.wsSend
        { id := st.nextId, type := "join", channel := jGet pjoin "channel",
          message := { id := st.nextId, command := "join", params := pjoin } } ∈
      (sendCommandToFigma st "join" pjoin).2.1 := by
  refine ⟨?_, ?_, ?_⟩
  · simp [sendCommandToFigma, hopen, hch, truthyChannel, hcmd]
  · simp [sendCommandToFigma, hopen]
  · simp [sendCommandToFigma, hopen]

/-- C4 witness: `create_rectangle` from a connected, channel-less state is
rejected with the precondition error while `join` is transmitted. -/
theorem send_requires_channel_witness :
    sendCommandToFigma
        { wsOpen := true, currentChannel := none, pendingRequests := [],
          nextId := 0, nextTimer := 0 } "create_rectangle" (JValue.obj []) =
      ({ wsOpen := true, currentChannel := none, pendingRequests := [],
         nextId := 0, nextTimer := 0 }, [],
       SendOutcome.rejectedNow "Must join a channel before sending commands") :=
  (send_requires_channel _ "create_rectangle" (JValue.obj []) (JValue.obj [])
    rfl rfl (by decide)).1

/-- C7: a command attempted with no live connection starts connection
establishment (`connectToFigma()`) and rejects the call immediately with
the not-connected error; the state is unchanged — no pending record is
created, nothing is queued, and no envelope is sent. -/
theorem send_without_connection_fails_fast (st : GatewayState)
    (command : String) (params : JValue) (h : st.wsOpen = false) :
    sendCommandToFigma st command params =
      (st, [GatewayEvent.startConnect],
       SendOutcome.rejectedNow "Not connected to Figma. Attempting to connect...") := by
  simp [sendCommandToFigma, h]

/-- C7 witness: `get_document_info` from a disconnected state. -/
theorem send_without_connection_fails_fast_witness :
    sendCommandToFigma
        { wsOpen := false, currentChannel := some "design-1",
          pendingRequests := [], nextId := 0, nextTimer := 0 }
        "get_document_info" (JValue.obj []) =
      ({ wsOpen := false, currentChannel := some "design-1",
         pendingRequests := [], nextId := 0, nextTimer := 0 },
       [GatewayEvent.startConnect],
       SendOutcome.rejectedNow "Not connected to Figma. Attempting to connect...") :=
  send_without_connection_fails_fast _ "get_document_info" (JValue.obj []) rfl

theorem wsOnMessage_currentChannel (st : GatewayState) (resp : FigmaResponse) :
    (wsOnMessage st resp).1.currentChannel = st.currentChannel := by
  obtain ⟨m, hm⟩ := wsOnMessage_state_shape st resp
  rw [hm]

theorem requestTimeoutFires_currentChannel (st : GatewayState) (id : Nat) :
    (requestTimeoutFires st id).1.currentChannel = st.currentChannel := by
  obtain ⟨m, hm⟩ := requestTimeoutFires_state_shape st id
  rw [hm]

theorem send_currentChannel (st : GatewayState) (command : String)
    (params : JValue) :
    (sendCommandToFigma st command params).1.currentChannel =
      st.currentChannel := by
  rcases send_state_shape st command params with h | h <;> rw [h]

/-- C8: whenever the transport (re)opens, the current-channel marker is
reset to none even if a channel had been joined before; from that state
every command other than `join` fails with the channel precondition error;
the join success continuation is the operation that sets the channel, and
none of the other operations (response handling, close, timeout firing,
command dispatch) ever changes the current-channel marker. -/
theorem open_resets_channel_only_join_sets_it (st st2 : GatewayState)
    (resp : FigmaResponse) (name : String) (id : Nat) (command : String)
    (params : JValue) (hcmd : command ≠ "join") :
    (wsOnOpen st).currentChannel = none ∧
    sendCommandToFigma (wsOnOpen st) command params =
      (wsOnOpen st, [],
       SendOutcome.rejectedNow "Must join a channel before sending commands") ∧
    (joinChannelSucceeded st2 name).currentChannel = some name ∧
    (wsOnMessage st2 resp).1.currentChannel = st2.currentChannel ∧
    (wsOnClose st2).1.currentChannel = st2.currentChannel ∧
    (requestTimeoutFires st2 id).1.currentChannel = st2.currentChannel ∧
    (sendCommandToFigma st2 command params).1.currentChannel =
      st2.currentChannel :=
  ⟨rfl,
   (send_requires_channel (wsOnOpen st) command params params rfl rfl hcmd).1,
   rfl,
   wsOnMessage_currentChannel st2 resp,
   rfl,
   requestTimeoutFires_currentChannel st2 id,
   send_currentChannel st2 command params⟩

/-- C8 witness: reopening from `sampleState` (which had joined
"design-1") leaves no channel, and `get_selection` then fails with the
precondition error. -/
theorem open_resets_channel_witness :
    (wsOnOpen sampleState).currentChannel = none ∧
    sendCommandToFigma (wsOnOpen sampleState) "get_selection" (JValue.obj []) =
      (wsOnOpen sampleState, [],
       SendOutcome.rejectedNow "Must join a channel before sending commands") := by
  obtain ⟨h1, h2, -⟩ := open_resets_channel_only_join_sets_it sampleState
    sampleState { id := none, result := none, error := none } "design-1" 0
    "get_selection" (JValue.obj []) (by decide)
  exact ⟨h1, h2⟩

theorem lookup_none_of_lt (m : List (Nat × PendingRequest)) (n : Nat)
    (h : ∀ p ∈ m, p.1 < n) : m.lookup n = none := by
  induction m with
  | nil => rfl
  | cons p t ih =>
    obtain ⟨k, v⟩ := p
    have hk : k < n := h (k, v) (List.mem_cons_self _ _)
    have hb : (n == k) = false := beq_eq_false_iff_ne.mpr (by omega)
    simp only [List.lookup, hb]
    exact ih fun q hq => h q (List.mem_cons_of_mem _ hq)

theorem gatewayStep_nextId_mono {st st2 : GatewayState}
    (h : GatewayStep st st2) : st.nextId ≤ st2.nextId := by
  cases h with
  | opened => exact Nat.le_refl _
  | message resp =>
    obtain ⟨m, hm⟩ := wsOnMessage_state_shape st resp
    rw [hm]
  | closed => exact Nat.le_refl _
  | timedOut id =>
    obtain ⟨m, hm⟩ := requestTimeoutFires_state_shape st id
    rw [hm]
  | sent c p =>
    rcases send_state_shape st c p with h2 | h2 <;> rw [h2]
    exact Nat.le_succ _
  | joined name => exact Nat.le_refl _

theorem gatewaySteps_nextId_mono {st st2 : GatewayState}
    (h : Relation.ReflTransGen GatewayStep st st2) :
    st.nextId ≤ st2.nextId := by
  induction h with
  | refl => exact Nat.le_refl _
  | tail hs hstep ih => exact Nat.le_trans ih (gatewayStep_nextId_mono hstep)

/-- C5: a command dispatched with an open socket and (unless it is `join`)
a joined channel is assigned the fresh id once: the wire request carries
that id both as its outer id and as its inner `message.id`, its `type` is
`"join"` for the join command and `"message"` otherwise, its `channel` is
the join parameter for join and the current channel otherwise, exactly one
new pending record keyed by that id is appended (given that all pending
ids were previously drawn from the generator), a 30000 ms timer is armed,
and the send happens after registration.  Moreover no invocation performed
in any state reachable from the resulting state is ever assigned the same
id again. -/
theorem send_builds_correlated_envelope (st : GatewayState) (command : String)
    (params : JValue) (hopen : st.wsOpen = true)
    (hch : command = "join" ∨ truthyChannel st.currentChannel = true)
    (hfresh : idsFresh st) :
    sendCommandToFigma st command params =
      ({ st with
          pendingRequests := st.pendingRequests ++ [(st.nextId, ⟨st.nextTimer⟩)],
          nextId := st.nextId + 1, nextTimer := st.nextTimer + 1 },
       [GatewayEvent.setTimeoutEv st.nextTimer 30000,
        GatewayEvent.wsSend
          { id := st.nextId,
            type := if command == "join" then "join" else "message",
            channel := if command == "join" then jGet params "channel"
                       else st.currentChannel.map JValue.str,
            message :=
              { id := st.nextId, command := command, params := params } }],
       SendOutcome.pendingSent st.nextId) ∧
    (∀ st2 : GatewayState,
        Relation.ReflTransGen GatewayStep
          (sendCommandToFigma st command params).1 st2 →
        ∀ cmd2 params2,
          (sendCommandToFigma st2 cmd2 params2).2.2 ≠
            SendOutcome.pendingSent st.nextId) := by
  have hguard : ((command != "join") && !truthyChannel st.currentChannel)
      = false := by
    rcases hch with h | h
    · simp [h]
    · simp [h]
  have hlook : st.pendingRequests.lookup st.nextId = none :=
    lookup_none_of_lt _ _ hfresh
  have heq : sendCommandToFigma st command params =
      ({ st with
          pendingRequests := st.pendingRequests ++ [(st.nextId, ⟨st.nextTimer⟩)],
          nextId := st.nextId + 1, nextTimer := st.nextTimer + 1 },
       [GatewayEvent.setTimeoutEv st.nextTimer 30000,
        GatewayEvent.wsSend
          { id := st.nextId,
            type := if command == "join" then "join" else "message",
            channel := if command == "join" then jGet params "channel"
                       else st.currentChannel.map JValue.str,
            message :=
              { id := st.nextId, command := command, params := params } }],
       SendOutcome.pendingSent st.nextId) := by
    simp [sendCommandToFigma, hopen, hguard, mapSet, hlook]
  refine ⟨heq, ?_⟩
  intro st2 hsteps cmd2 params2 hcontra
  have h1 : (sendCommandToFigma st command params).1.nextId = st.nextId + 1 := by
    rw [heq]
  have hmono := gatewaySteps_nextId_mono hsteps
  rw [h1] at hmono
  have hid := send_pendingSent_id st2 cmd2 params2 st.nextId hcontra
  omega

/-- C5 witness: `get_selection` dispatched from a freshly joined state with
empty pending map: id 0 is used as both envelope ids, the record is
registered, and the message is transmitted to channel "design-1". -/
theorem send_builds_correlated_envelope_witness :
    ({ wsOpen := true, currentChannel := some "design-1",
       pendingRequests := [], nextId := 0, nextTimer := 0 } :
        GatewayState).wsOpen = true ∧
    sendCommandToFigma
      { wsOpen := true, currentChannel := some "design-1",
        pendingRequests := [], nextId := 0, nextTimer := 0 }
      "get_selection" (JValue.obj []) =
      ({ wsOpen := true, currentChannel := some "design-1",
         pendingRequests := [(0, ⟨0⟩)], nextId := 1, nextTimer := 1 },
       [GatewayEvent.setTimeoutEv 0 30000,
        GatewayEvent.wsSend
          { id := 0, type := "message", channel := some (JValue.str "design-1"),
            message := { id := 0, command := "get_selection",
                         params := JValue.obj [] } }],
       SendOutcome.pendingSent 0) := by
  refine ⟨rfl, ?_⟩
  have h := (send_builds_correlated_envelope
    { wsOpen := true, currentChannel := some "design-1",
      pendingRequests := [], nextId := 0, nextTimer := 0 }
    "get_selection" (JValue.obj []) rfl (Or.inr rfl)
    (fun p hp => absurd hp (List.not_mem_nil p))).1
  simpa using h

/-- C6: the `clone_node` tool first sends `get_node_info {nodeId}` and only
then a `clone_node` command whose `x`/`y` params are the absolute
coordinates: original position plus the explicit offsets.  In particular an
offset `{x:50, y:0}` against an original at `(10,10)` transmits
`(60,10)` — the offset is resolved by the Gateway before transmission. -/
theorem cloneNode_resolves_offset_before_send (nodeId : String)
    (ox oy dx dy : Rat) :
    cloneNodeCommands nodeId (some dx) (some dy)
        (JValue.obj [("id", JValue.str nodeId), ("x", JValue.num ox),
                     ("y", JValue.num oy)]) =
      [("get_node_info", JValue.obj [("nodeId", JValue.str nodeId)]),
       ("clone_node",
        JValue.obj [("nodeId", JValue.str nodeId),
                    ("x", JValue.num (ox + dx)),
                    ("y", JValue.num (oy + dy))])] ∧
    cloneNodeCommands "node-1" (some 50) (some 0)
        (JValue.obj [("x", JValue.num 10), ("y", JValue.num 10)]) =
      [("get_node_info", JValue.obj [("nodeId", JValue.str "node-1")]),
       ("clone_node",
        JValue.obj [("nodeId", JValue.str "node-1"),
                    ("x", JValue.num 60), ("y", JValue.num 10)])] := by
  refine ⟨rfl, ?_⟩
  have h10 : (10 : Rat) + 50 = 60 := by norm_num
  have h0 : (10 : Rat) + 0 = 10 := by norm_num
  show [("get_node_info", JValue.obj [("nodeId", JValue.str "node-1")]),
        ("clone_node",
         JValue.obj [("nodeId", JValue.str "node-1"),
                     ("x", JValue.num ((10 : Rat) + 50)),
                     ("y", JValue.num ((10 : Rat) + 0))])] = _
  rw [h10, h0]

/-- C9: a `set_fill_color` call whose `r`, `g` or `b` argument violates the
declared [0,1] schema bound is rejected before the handler body runs: the
state is unchanged (no pending record), no event is emitted (no envelope
on the wire), and the caller gets a synchronous validation error. -/
theorem setFillColor_rejected_locally (st : GatewayState) (nodeId : String)
    (r g b : Rat) (a : Option Rat)
    (h : zNum01 r = false ∨ zNum01 g = false ∨ zNum01 b = false) :
    setFillColorTool st nodeId r g b a =
      (st, [], ToolOutcome.validationError) := by
  have hv : setFillColorArgsValid r g b a = false := by
    rcases h with h | h | h <;> simp [setFillColorArgsValid, h]
  simp [setFillColorTool, hv]

/-- C9 witness: `r = 3/2` is outside [0,1] and the call is rejected
locally. -/
theorem setFillColor_rejected_locally_witness :
    zNum01 (3 / 2 : Rat) = false ∧
    setFillColorTool sampleState "node-1" (3 / 2) (1 / 2) (1 / 2) none =
      (sampleState, [], ToolOutcome.validationError) := by
  have h32 : zNum01 (3 / 2 : Rat) = false := by
    have hn : ¬ ((3 / 2 : Rat) ≤ 1) := by norm_num
    simp [zNum01, hn]
  exact ⟨h32,
    setFillColor_rejected_locally sampleState "node-1" (3 / 2) (1 / 2) (1 / 2)
      none (Or.inl h32)⟩

/-- C10: in both `set_fill_color` and `set_stroke_color` the handler
computes the transmitted alpha as `a || 1`, so an explicit alpha of 0 is
conflated with an absent alpha: the transmitted color carries `a = 1`
whenever the caller passes 0 or omits the channel, a transmitted alpha can
never be 0 at all, and yet 0 lies inside the declared valid range [0,1] of
the schema. -/
theorem alpha_zero_conflated_with_absent (nodeId : String) (r g b : Rat)
    (w a : Option Rat) (h : a = none ∨ a = some 0) :
    sentAlpha (setFillColorSendParams nodeId r g b a) =
      some (JValue.num 1) ∧
    sentAlpha (setStrokeColorSendParams nodeId r g b a w) =
      some (JValue.num 1) ∧
    (∀ a2 : Option Rat, jsOrOne a2 ≠ 0) ∧
    zNum01 0 = true := by
  have hone : jsOrOne a = 1 := by rcases h with h | h <;> simp [jsOrOne, h]
  have hfill : sentAlpha (setFillColorSendParams nodeId r g b a) =
      some (JValue.num (jsOrOne a)) := rfl
  have hstroke : sentAlpha (setStrokeColorSendParams nodeId r g b a w) =
      some (JValue.num (jsOrOne a)) := rfl
  refine ⟨by rw [hfill, hone], by rw [hstroke, hone], ?_, by decide⟩
  intro a2
  rcases a2 with _ | v
  · simp [jsOrOne]
  · by_cases hv : v = 0 <;> simp [jsOrOne, hv]

/-- C10 witness: an explicit fully transparent alpha of 0 is transmitted
as 1. -/
theorem alpha_zero_conflated_with_absent_witness :
    ((some (0 : Rat) = none ∨ some (0 : Rat) = some 0) ∧
     sentAlpha (setFillColorSendParams "node-1" 1 0 0 (some 0)) =
       some (JValue.num 1)) :=
  ⟨Or.inr rfl,
   (alpha_zero_conflated_with_absent "node-1" 1 0 0 none (some 0)
     (Or.inr rfl)).1⟩
